import Mathlib

/-!
Verification of the pokemon-battle contest engine.

Shallow embedding of `src/pokemon_battle` (battle.py, pokeapi.py, services.py,
exceptions.py, models.py): Python floats are modelled as exact rationals (ℚ),
Python ints as ℤ, HTTP status codes as ℕ.  Python's `str.lower`, `str.strip`
and `str.split(",")` are modelled by structural recursion over the character
list so that they evaluate inside the kernel.  The network and the wall clock
are passed in explicitly (an `HttpResult` oracle and a `now : ℚ` instant); the
in-memory cache is explicit state.  The human-readable battle log built by
`execute_battle` is presentation-only and is not modelled.
-/

namespace PokemonBattle

/-! ### Python string primitives, modelled structurally -/

/-- Drop leading whitespace characters from a character list
(the half of Python's `str.strip` acting on one end). -/
def dropLeadingWs : List Char → List Char
  | [] => []
  | c :: cs => if c.isWhitespace then dropLeadingWs cs else c :: cs

/-- Python's `str.strip()`: remove leading and trailing whitespace. -/
def pyStrip (s : String) : String :=
  String.mk ((dropLeadingWs (dropLeadingWs s.data).reverse).reverse)

/-- Python's `str.lower()`. -/
def pyLower (s : String) : String :=
  String.mk (s.data.map Char.toLower)

/-- Python's `name.lower().strip()` combination used throughout the code base. -/
def pyNormalize (s : String) : String :=
  pyStrip (pyLower s)

/-- Python's `str.split(",")` on a character list: split at every comma. -/
def splitChars : List Char → List (List Char)
  | [] => [[]]
  | c :: cs =>
    let r := splitChars cs
    if c = ',' then [] :: r
    else
      match r with
      | [] => [[c]]
      | x :: xs => (c :: x) :: xs

/-- battle.py lines 286-287: `[t.strip() for t in pokemon.types.split(",") if t.strip()]`. -/
def parseTypes (s : String) : List String :=
  ((splitChars s.data).map (fun cs => pyStrip (String.mk cs))).filter (fun t => !(t == ""))

/-- Python's `",".join(types)` (pokeapi.py line 132). -/
def joinComma : List String → String
  | [] => ""
  | [t] => t
  | t :: ts => t ++ "," ++ joinComma ts

/-! ### battle.py: the type chart and the scoring formula -/

/-- battle.py lines 37-162: `TYPE_CHART`, attacking type → defending type → multiplier. -/
def TYPE_CHART : List (String × List (String × ℚ)) :=
  [ ("normal", [("rock", 0.5), ("ghost", 0), ("steel", 0.5)])
  , ("fire",
      [("fire", 0.5), ("water", 0.5), ("grass", 2), ("ice", 2), ("bug", 2),
       ("rock", 0.5), ("dragon", 0.5), ("steel", 2)])
  , ("water",
      [("fire", 2), ("water", 0.5), ("grass", 0.5), ("ground", 2), ("rock", 2),
       ("dragon", 0.5)])
  , ("electric",
      [("water", 2), ("electric", 0.5), ("grass", 0.5), ("ground", 0),
       ("flying", 2), ("dragon", 0.5)])
  , ("grass",
      [("fire", 0.5), ("water", 2), ("grass", 0.5), ("poison", 0.5),
       ("ground", 2), ("flying", 0.5), ("bug", 0.5), ("rock", 2),
       ("dragon", 0.5), ("steel", 0.5)])
  , ("ice",
      [("fire", 0.5), ("water", 0.5), ("grass", 2), ("ice", 0.5), ("ground", 2),
       ("flying", 2), ("dragon", 2), ("steel", 0.5)])
  , ("fighting",
      [("normal", 2), ("ice", 2), ("poison", 0.5), ("flying", 0.5),
       ("psychic", 0.5), ("bug", 0.5), ("rock", 2), ("ghost", 0), ("dark", 2),
       ("steel", 2), ("fairy", 0.5)])
  , ("poison",
      [("grass", 2), ("poison", 0.5), ("ground", 0.5), ("rock", 0.5),
       ("ghost", 0.5), ("steel", 0), ("fairy", 2)])
  , ("ground",
      [("fire", 2), ("electric", 2), ("grass", 0.5), ("poison", 2),
       ("flying", 0), ("bug", 0.5), ("rock", 2), ("steel", 2)])
  , ("flying",
      [("electric", 0.5), ("grass", 2), ("fighting", 2), ("bug", 2),
       ("rock", 0.5), ("steel", 0.5)])
  , ("psychic",
      [("fighting", 2), ("poison", 2), ("psychic", 0.5), ("dark", 0),
       ("steel", 0.5)])
  , ("bug",
      [("fire", 0.5), ("grass", 2), ("fighting", 0.5), ("poison", 0.5),
       ("flying", 0.5), ("psychic", 2), ("ghost", 0.5), ("dark", 2),
       ("steel", 0.5), ("fairy", 0.5)])
  , ("rock",
      [("fire", 2), ("ice", 2), ("fighting", 0.5), ("ground", 0.5),
       ("flying", 2), ("bug", 2), ("steel", 0.5)])
  , ("ghost", [("normal", 0), ("psychic", 2), ("ghost", 2), ("dark", 0.5)])
  , ("dragon", [("dragon", 2), ("steel", 0.5), ("fairy", 0)])
  , ("dark",
      [("fighting", 0.5), ("psychic", 2), ("ghost", 2), ("dark", 0.5),
       ("fairy", 0.5)])
  , ("steel",
      [("fire", 0.5), ("water", 0.5), ("electric", 0.5), ("ice", 2),
       ("rock", 2), ("steel", 0.5), ("fairy", 2)])
  , ("fairy",
      [("fire", 0.5), ("fighting", 2), ("poison", 0.5), ("dragon", 2),
       ("dark", 2), ("steel", 0.5)])
  ]

/-- The 18 known category labels (the keys of `TYPE_CHART`). -/
def knownTypes : List String :=
  ["normal", "fire", "water", "electric", "grass", "ice", "fighting", "poison",
   "ground", "flying", "psychic", "bug", "rock", "ghost", "dragon", "dark",
   "steel", "fairy"]

/-- `TYPE_CHART.get(atk_type, {}).get(def_type, 1.0)` (battle.py lines 190-192). -/
def chartGet (atk d : String) : ℚ :=
  (((TYPE_CHART.lookup atk).getD []).lookup d).getD 1.0

/-- battle.py lines 176-195: multiply the lookup over the full cross product. -/
def get_type_effectiveness (attacker_types defender_types : List String) : ℚ :=
  attacker_types.foldl
    (fun m atk => defender_types.foldl (fun m d => m * chartGet atk d) m) 1.0

/-- models.py `Pokemon` (the columns the battle subsystem reads, plus identity). -/
structure Pokemon where
  id : ℤ
  pokeapi_id : ℤ
  name : String
  hp : ℤ
  attack : ℤ
  defense : ℤ
  special_attack : ℤ
  special_defense : ℤ
  speed : ℤ
  types : String
  sprite_url : Option String
deriving DecidableEq

/-- battle.py lines 198-213: `calculate_base_power`. -/
def calculate_base_power (pokemon : Pokemon) : ℚ :=
  let offensive := ((pokemon.attack : ℚ) + (pokemon.special_attack : ℚ)) / 2
  let defensive := ((pokemon.defense : ℚ) + (pokemon.special_defense : ℚ)) / 2
  ((pokemon.hp : ℚ) * 0.5 + offensive + defensive + (pokemon.speed : ℚ)) / 4

/-- battle.py lines 216-264: `calculate_battle_score` (the returned score;
the log entries are presentation-only and not modelled). -/
def calculate_battle_score (attacker defender : Pokemon)
    (attacker_types defender_types : List String) : ℚ :=
  let base_power := calculate_base_power attacker
  let type_effectiveness := get_type_effectiveness attacker_types defender_types
  let type_bonus := type_effectiveness * base_power * 0.3
  let speed_ratio := (attacker.speed : ℚ) / ((max defender.speed 1 : ℤ) : ℚ)
  let speed_bonus := min speed_ratio 2.0 * base_power * 0.2
  base_power * 0.5 + type_bonus + speed_bonus

/-- Python's `round(x, 2)` used on the two scores (battle.py lines 347-348). -/
def round2 (q : ℚ) : ℚ := (round (q * 100) : ℚ) / 100

/-- battle.py lines 165-173: `BattleResult` (battle_log omitted). -/
structure BattleResult where
  winner : Option Pokemon
  pokemon1_score : ℚ
  pokemon2_score : ℚ
  is_draw : Bool
deriving DecidableEq

/-- battle.py line 313: `score1` of `execute_battle` — `pokemon1` attacking
`pokemon2` with the parsed type lists (line 318's `score2` is the same
function with the arguments swapped). -/
def battleScore1 (pokemon1 pokemon2 : Pokemon) : ℚ :=
  calculate_battle_score pokemon1 pokemon2
    (parseTypes pokemon1.types) (parseTypes pokemon2.types)

/-- battle.py lines 326-328: the draw test of `execute_battle`. -/
def battleIsDraw (pokemon1 pokemon2 : Pokemon) : Bool :=
  let score1 := battleScore1 pokemon1 pokemon2
  let score2 := battleScore1 pokemon2 pokemon1
  let score_diff := |score1 - score2|
  let avg_score := (score1 + score2) / 2
  if avg_score > 0 then decide (score_diff < avg_score * 0.01)
  else decide (score1 = score2)

/-- battle.py lines 267-351: `execute_battle` (winner selection lines 330-341,
scores rounded to two decimals lines 345-351). -/
def execute_battle (pokemon1 pokemon2 : Pokemon) : BattleResult :=
  { winner :=
      if battleIsDraw pokemon1 pokemon2 then none
      else if battleScore1 pokemon1 pokemon2 > battleScore1 pokemon2 pokemon1 then
        some pokemon1
      else some pokemon2
  , pokemon1_score := round2 (battleScore1 pokemon1 pokemon2)
  , pokemon2_score := round2 (battleScore1 pokemon2 pokemon1)
  , is_draw := battleIsDraw pokemon1 pokemon2 }

/-- models.py `Battle` (the persisted outcome row; dynamic columns only). -/
structure Battle where
  pokemon1_id : ℤ
  pokemon2_id : ℤ
  winner_id : Option ℤ
  pokemon1_score : ℚ
  pokemon2_score : ℚ
deriving DecidableEq

/-- services.py lines 121-128: the `Battle` row built from a `BattleResult`
(`winner_id=result.winner.id if result.winner else None`). -/
def mkBattleRecord (pokemon1 pokemon2 : Pokemon) (result : BattleResult) : Battle :=
  { pokemon1_id := pokemon1.id
  , pokemon2_id := pokemon2.id
  , winner_id := result.winner.map (fun p => p.id)
  , pokemon1_score := result.pokemon1_score
  , pokemon2_score := result.pokemon2_score }

/-! ### pokeapi.py: payloads, cache, client -/

/-- The shape of a PokeAPI response body that `_parse_pokemon_data` reads:
`{id, name, stats: [{stat: {name}, base_stat}], types: [{type: {name}}],
sprites: {front_default}}` flattened to the fields actually accessed.
The outer `Option` on `sprites` is the `if sprites := data.get("sprites")`
walrus test; the inner one is `sprites.get("front_default")`. -/
structure PokeData where
  pokeapi_id : ℤ
  name : String
  stats : List (String × ℤ)
  types : List String
  sprites : Option (Option String)
deriving DecidableEq

/-- schemas.py `PokemonCreate`. -/
structure PokemonCreate where
  pokeapi_id : ℤ
  name : String
  hp : ℤ
  attack : ℤ
  defense : ℤ
  special_attack : ℤ
  special_defense : ℤ
  speed : ℤ
  types : String
  sprite_url : Option String
deriving DecidableEq

/-- pokeapi.py lines 114-134: `_parse_pokemon_data`
(`stats.get(key, 0)` on the stats dictionary, types joined with ","). -/
def parse_pokemon_data (data : PokeData) : PokemonCreate :=
  { pokeapi_id := data.pokeapi_id
  , name := data.name
  , hp := (data.stats.lookup "hp").getD 0
  , attack := (data.stats.lookup "attack").getD 0
  , defense := (data.stats.lookup "defense").getD 0
  , special_attack := (data.stats.lookup "special-attack").getD 0
  , special_defense := (data.stats.lookup "special-defense").getD 0
  , speed := (data.stats.lookup "speed").getD 0
  , types := joinComma data.types
  , sprite_url := data.sprites.getD none }

/-- pokeapi.py lines 16-21: `CacheEntry`. -/
structure CacheEntry where
  data : PokeData
  expires_at : ℚ

/-- pokeapi.py lines 24-50: `PokemonCache`.  The backing `dict` is modelled as
a function from keys to optional entries; the wall clock (`time.time()`) is
passed explicitly as `now`. -/
structure PokemonCache where
  cache : String → Option CacheEntry
  ttl : ℚ

/-- pokeapi.py lines 31-39: `get` returns the live value, and on an expired
entry deletes it (`del self._cache[key]`) and returns nothing.  The mutated
cache is returned alongside the result. -/
def PokemonCache.get (c : PokemonCache) (now : ℚ) (key : String) :
    Option PokeData × PokemonCache :=
  match c.cache key with
  | none => (none, c)
  | some entry =>
    if now > entry.expires_at then
      (none, { c with cache := fun k => if k = key then none else c.cache k })
    else (some entry.data, c)

/-- pokeapi.py lines 41-46: `set` stores the value expiring at `now + ttl`. -/
def PokemonCache.set (c : PokemonCache) (now : ℚ) (key : String)
    (value : PokeData) : PokemonCache :=
  { c with
    cache := fun k =>
      if k = key then some { data := value, expires_at := now + c.ttl }
      else c.cache k }

/-- pokeapi.py lines 48-50: `clear` empties the cache. -/
def PokemonCache.clear (c : PokemonCache) : PokemonCache :=
  { c with cache := fun _ => none }

/-- One HTTP exchange with the external source: either a response with a
status code and (already decoded) body, or a transport failure
(`httpx.RequestError`). -/
inductive HttpResult where
  | response (status : ℕ) (body : PokeData)
  | requestError (message : String)
deriving DecidableEq

/-- exceptions.py: the two error kinds `PokeAPIClient.get_pokemon` can raise —
`PokemonNotFoundError` (carrying the requested name) and `PokeAPIError`. -/
inductive PokeError where
  | notFound (pokemon_name : String)
  | apiError (message : String)
deriving DecidableEq

/-- exceptions.py lines 16-21 and 27-31: the human-readable message. -/
def PokeError.message : PokeError → String
  | .notFound n => "Pokemon '" ++ n ++ "' not found"
  | .apiError m => "PokeAPI error: " ++ m

/-- exceptions.py lines 16-21 and 27-31: the machine-readable code. -/
def PokeError.error_code : PokeError → String
  | .notFound _ => "POKEMON_NOT_FOUND"
  | .apiError _ => "POKEAPI_ERROR"

/-- pokeapi.py lines 70-112: `PokeAPIClient.get_pokemon`.  The name is
normalized, the cache consulted first; on a miss the supplied exchange `net`
stands for `client.get(...)`: a 404 status raises `PokemonNotFoundError(name)`
(line 96-97), any other non-2xx status raises
`PokeAPIError(f"HTTP error {status}")` via `raise_for_status` (lines 99,
107-110), a transport failure raises `PokeAPIError(str(e))` (lines 111-112),
and a success is cached and parsed.  The cache after the call is returned in
the second component. -/
def get_pokemon (cache : PokemonCache) (now : ℚ) (name : String)
    (net : HttpResult) : Except PokeError PokemonCreate × PokemonCache :=
  let name_lower := pyNormalize name
  match cache.get now name_lower with
  | (some data, c1) => (.ok (parse_pokemon_data data), c1)
  | (none, c1) =>
    match net with
    | .requestError msg => (.error (.apiError msg), c1)
    | .response status body =>
      if status = 404 then (.error (.notFound name), c1)
      else if 200 ≤ status ∧ status ≤ 299 then
        (.ok (parse_pokemon_data body), c1.set now name_lower body)
      else (.error (.apiError ("HTTP error " ++ toString status)), c1)

/-! ### services.py: lookup and orchestration -/

/-- The mutable state the services touch: the persistent store's pokemon table
and the process-local cache. -/
structure World where
  store : List Pokemon
  cache : PokemonCache

/-- Model of the autoincrement primary key assigned on insert. -/
def freshId (store : List Pokemon) : ℤ := (store.length : ℤ) + 1

/-- services.py lines 52-68: `_create_pokemon` copies the fetched fields into
a new row. -/
def create_pokemon (store : List Pokemon) (d : PokemonCreate) : Pokemon :=
  { id := freshId store
  , pokeapi_id := d.pokeapi_id
  , name := d.name
  , hp := d.hp
  , attack := d.attack
  , defense := d.defense
  , special_attack := d.special_attack
  , special_defense := d.special_defense
  , speed := d.speed
  , types := d.types
  , sprite_url := d.sprite_url }

/-- services.py lines 21-50: `get_or_fetch_pokemon` — normalize, query the
store by name, else fetch via the client (which is passed the normalized
name) and persist the new row. -/
def get_or_fetch_pokemon (w : World) (now : ℚ) (net : String → HttpResult)
    (name : String) : Except PokeError Pokemon × World :=
  let name_lower := pyNormalize name
  match w.store.find? (fun p => p.name == name_lower) with
  | some p => (.ok p, w)
  | none =>
    match get_pokemon w.cache now name_lower (net name_lower) with
    | (.error e, c1) => (.error e, { w with cache := c1 })
    | (.ok pc, c1) =>
      let p := create_pokemon w.store pc
      (.ok p, { store := w.store ++ [p], cache := c1 })

/-- exceptions.py: the error kinds `BattleService.execute_battle` can raise —
`SamePokemonError` plus whatever the lookup raises. -/
inductive ServiceError where
  | samePokemon (pokemon_name : String)
  | poke (e : PokeError)
deriving DecidableEq

/-- exceptions.py lines 34-42 plus propagation: machine-readable code. -/
def ServiceError.error_code : ServiceError → String
  | .samePokemon _ => "SAME_POKEMON"
  | .poke e => e.error_code

/-- services.py lines 90-137: `BattleService.execute_battle` — normalize both
names, reject equal names with `SamePokemonError` before any lookup, resolve
both records, run the battle and persist the outcome row.  On an error the
store is unchanged (the transaction rolls back) but cache mutations stick. -/
def BattleService.execute_battle (w : World) (now : ℚ)
    (net : String → HttpResult) (pokemon1_name pokemon2_name : String) :
    Except ServiceError Battle × World :=
  let name1 := pyNormalize pokemon1_name
  let name2 := pyNormalize pokemon2_name
  if name1 = name2 then (.error (.samePokemon name1), w)
  else
    match get_or_fetch_pokemon w now net name1 with
    | (.error e, w1) => (.error (.poke e), w1)
    | (.ok p1, w1) =>
      match get_or_fetch_pokemon w1 now net name2 with
      | (.error e, w2) => (.error (.poke e), w2)
      | (.ok p2, w2) =>
        let result := PokemonBattle.execute_battle p1 p2
        (.ok (mkBattleRecord p1 p2 result), w2)

/-! ### Cache operation sequences (for the lifecycle claim) -/

/-- The three mutating entry points of `PokemonCache`. -/
inductive CacheOp where
  | setOp (now : ℚ) (key : String) (value : PokeData)
  | clearOp
  | getOp (now : ℚ) (key : String)

/-- State reached after one cache operation (a lookup keeps only its
eviction side effect). -/
def applyOp (c : PokemonCache) : CacheOp → PokemonCache
  | .setOp t k v => c.set t k v
  | .clearOp => c.clear
  | .getOp t k => (c.get t k).2

/-- State reached after a sequence of cache operations. -/
def applyOps (c : PokemonCache) (ops : List CacheOp) : PokemonCache :=
  ops.foldl applyOp c

/-! ### The spec's formulas (§4.2-4.3), stated independently for comparison -/

/-- The spec §4.2 base-power formula, written from the spec's words:
`power = (vitality × 0.5 + (offense + special_offense)/2 +
(defense + special_defense)/2 + speed) / 4`. -/
def specBasePower (vitality offense defense special_offense special_defense
    speed : ℤ) : ℚ :=
  ((vitality : ℚ) * 0.5 + ((offense : ℚ) + (special_offense : ℚ)) / 2 +
    ((defense : ℚ) + (special_defense : ℚ)) / 2 + (speed : ℚ)) / 4

/-- The spec §4.3 per-side score formula, written from the spec's words:
`base × 0.5 + effectiveness × base × 0.3 +
min(attacker.speed / max(defender.speed, 1), 2.0) × base × 0.2`. -/
def specSideScore (attacker defender : Pokemon)
    (attacker_types defender_types : List String) : ℚ :=
  let base := specBasePower attacker.hp attacker.attack attacker.defense
    attacker.special_attack attacker.special_defense attacker.speed
  base * 0.5 + get_type_effectiveness attacker_types defender_types * base * 0.3 +
    min ((attacker.speed : ℚ) / max (defender.speed : ℚ) 1) 2.0 * base * 0.2

/-! ### Lemmas about the effectiveness table -/

/-- A successful association-list lookup returns a stored pair. -/
theorem lookup_mem {α β : Type} [BEq α] [LawfulBEq α] :
    ∀ (l : List (α × β)) (k : α) (v : β), l.lookup k = some v → (k, v) ∈ l := by
  intro l k v h
  induction l with
  | nil => simp [List.lookup] at h
  | cons hd tl ih =>
    obtain ⟨k', v'⟩ := hd
    by_cases hk : k = k'
    · subst hk
      simp [List.lookup] at h
      simp [h]
    · have hbeq : (k == k') = false := by simp [hk]
      simp only [List.lookup, hbeq] at h
      exact List.mem_cons_of_mem _ (ih h)

/-- Every multiplier stored in `TYPE_CHART` is 0, 0.5 or 2. -/
theorem chart_entry_values :
    ∀ p ∈ TYPE_CHART, ∀ e ∈ p.2, e.2 = 0 ∨ e.2 = 0.5 ∨ e.2 = 2 := by
  intro p hp
  fin_cases hp <;> intro e he <;> fin_cases he <;> norm_num

/-- Any single pair lookup yields 0, 0.5, 1 or 2 (missing pairs default to 1). -/
theorem chartGet_cases (a d : String) :
    chartGet a d = 0 ∨ chartGet a d = 0.5 ∨ chartGet a d = 1.0 ∨
      chartGet a d = 2 := by
  unfold chartGet
  rcases h1 : TYPE_CHART.lookup a with _ | row
  · simp [h1]
  · rcases h2 : row.lookup d with _ | v
    · simp [h1, h2]
    · have hrow : (a, row) ∈ TYPE_CHART := lookup_mem _ _ _ h1
      have hv : (d, v) ∈ row := lookup_mem _ _ _ h2
      have hval := chart_entry_values (a, row) hrow (d, v) hv
      simp only [h1, h2, Option.getD_some]
      tauto

/-- The multipliers reachable by stacking at most four chart factors. -/
def effValues : List ℚ := [0, 1/16, 1/8, 1/4, 1/2, 1, 2, 4, 8, 16]

/-- A product of four factors, each 0, 0.5, 1 or 2, lies in `effValues`. -/
theorem mulF_mem (x y z w : ℚ)
    (hx : x = 0 ∨ x = 0.5 ∨ x = 1.0 ∨ x = 2)
    (hy : y = 0 ∨ y = 0.5 ∨ y = 1.0 ∨ y = 2)
    (hz : z = 0 ∨ z = 0.5 ∨ z = 1.0 ∨ z = 2)
    (hw : w = 0 ∨ w = 0.5 ∨ w = 1.0 ∨ w = 2) :
    x * y * z * w ∈ effValues := by
  rcases hx with rfl | rfl | rfl | rfl <;> rcases hy with rfl | rfl | rfl | rfl <;>
    rcases hz with rfl | rfl | rfl | rfl <;>
    rcases hw with rfl | rfl | rfl | rfl <;> norm_num [effValues]

/-- Unfolding the cross-product fold for a single attacker and defender type. -/
theorem eff_one_one (a d : String) :
    get_type_effectiveness [a] [d] = 1.0 * chartGet a d := rfl

/-- Unfolding the fold for one attacker type and two defender types. -/
theorem eff_one_two (a d e : String) :
    get_type_effectiveness [a] [d, e] = 1.0 * chartGet a d * chartGet a e := rfl

/-- Unfolding the fold for two attacker types and one defender type. -/
theorem eff_two_one (a b d : String) :
    get_type_effectiveness [a, b] [d] = 1.0 * chartGet a d * chartGet b d := rfl

/-- Unfolding the fold for two attacker types and two defender types. -/
theorem eff_two_two (a b d e : String) :
    get_type_effectiveness [a, b] [d, e] =
      1.0 * chartGet a d * chartGet a e * chartGet b d * chartGet b e := rfl

/-- C1 (amended): for category sequences of length 1 or 2 over the 18 known
labels, the combined effectiveness is non-negative and bounded above by 16,
and every reachable multiplier lies in
{0, 1/16, 1/8, 1/4, 1/2, 1, 2, 4, 8, 16}. -/
theorem effectiveness_range (attacker_types defender_types : List String)
    (hA : attacker_types.length = 1 ∨ attacker_types.length = 2)
    (hD : defender_types.length = 1 ∨ defender_types.length = 2)
    (hAk : ∀ t ∈ attacker_types, t ∈ knownTypes)
    (hDk : ∀ t ∈ defender_types, t ∈ knownTypes) :
    0 ≤ get_type_effectiveness attacker_types defender_types ∧
    get_type_effectiveness attacker_types defender_types ≤ 16 ∧
    get_type_effectiveness attacker_types defender_types ∈ effValues := by
  have bounds : ∀ q ∈ effValues, 0 ≤ q ∧ q ≤ 16 := by
    intro q hq
    fin_cases hq <;> norm_num
  have h1F : (1 : ℚ) = 0 ∨ (1 : ℚ) = 0.5 ∨ (1 : ℚ) = 1.0 ∨ (1 : ℚ) = 2 := by
    norm_num
  have h10 : (1.0 : ℚ) = 1 := by norm_num
  suffices hmem : get_type_effectiveness attacker_types defender_types ∈ effValues by
    exact ⟨(bounds _ hmem).1, (bounds _ hmem).2, hmem⟩
  rcases hA with hA1 | hA2
  · obtain ⟨a, rfl⟩ := List.length_eq_one.mp hA1
    rcases hD with hD1 | hD2
    · obtain ⟨d, rfl⟩ := List.length_eq_one.mp hD1
      rw [eff_one_one, h10, one_mul]
      simpa using mulF_mem (chartGet a d) 1 1 1 (chartGet_cases a d) h1F h1F h1F
    · obtain ⟨d, e, rfl⟩ := List.length_eq_two.mp hD2
      rw [eff_one_two, h10, one_mul]
      simpa using mulF_mem (chartGet a d) (chartGet a e) 1 1
        (chartGet_cases a d) (chartGet_cases a e) h1F h1F
  · obtain ⟨a, b, rfl⟩ := List.length_eq_two.mp hA2
    rcases hD with hD1 | hD2
    · obtain ⟨d, rfl⟩ := List.length_eq_one.mp hD1
      rw [eff_two_one, h10, one_mul]
      simpa using mulF_mem (chartGet a d) (chartGet b d) 1 1
        (chartGet_cases a d) (chartGet_cases b d) h1F h1F
    · obtain ⟨d, e, rfl⟩ := List.length_eq_two.mp hD2
      rw [eff_two_two, h10, one_mul]
      exact mulF_mem (chartGet a d) (chartGet a e) (chartGet b d) (chartGet b e)
        (chartGet_cases a d) (chartGet_cases a e) (chartGet_cases b d)
        (chartGet_cases b e)

/-- Witness for `effectiveness_range` at the concrete matchup fire → grass. -/
theorem effectiveness_range_witness :
    0 ≤ get_type_effectiveness ["fire"] ["grass"] ∧
    get_type_effectiveness ["fire"] ["grass"] ≤ 16 ∧
    get_type_effectiveness ["fire"] ["grass"] ∈ effValues :=
  effectiveness_range ["fire"] ["grass"] (Or.inl rfl) (Or.inl rfl)
    (by decide) (by decide)

/-- C1 (counterexample): the dual/dual matchup fighting+ground attacking
rock+steel — four sequences over the known labels of length 2 — stacks four
2× factors to 16, which exceeds the claimed bound 4 and is outside the
claimed value set {0, 0.25, 0.5, 1, 2, 4}. -/
theorem effectiveness_exceeds_four :
    (∀ t ∈ (["fighting", "ground"] : List String), t ∈ knownTypes) ∧
    (∀ t ∈ (["rock", "steel"] : List String), t ∈ knownTypes) ∧
    get_type_effectiveness ["fighting", "ground"] ["rock", "steel"] = 16 ∧
    ¬ get_type_effectiveness ["fighting", "ground"] ["rock", "steel"] ≤ 4 ∧
    get_type_effectiveness ["fighting", "ground"] ["rock", "steel"] ∉
      ([0, 0.25, 0.5, 1, 2, 4] : List ℚ) := by
  have h : get_type_effectiveness ["fighting", "ground"] ["rock", "steel"] =
      1.0 * 2 * 2 * 2 * 2 := rfl
  refine ⟨by decide, by decide, ?_, ?_, ?_⟩ <;> rw [h] <;> norm_num

/-! ### The scoring formula (C2) -/

/-- C2: the per-side score computed by the code equals the spec's closed
formula `base × 0.5 + effectiveness × base × 0.3 +
min(attacker.speed / max(defender.speed, 1), 2.0) × base × 0.2` with
`base = (vitality × 0.5 + (offense + special_offense)/2 +
(defense + special_defense)/2 + speed)/4`; the spec's example attribute set
35/55/40/50/50/90 gives base power exactly 51.25; and the `max(_, 1)` floor
keeps the denominator strictly positive even at defender speed 0. -/
theorem battle_score_formula (attacker defender : Pokemon)
    (attacker_types defender_types : List String) :
    calculate_battle_score attacker defender attacker_types defender_types =
      specSideScore attacker defender attacker_types defender_types ∧
    calculate_base_power attacker =
      specBasePower attacker.hp attacker.attack attacker.defense
        attacker.special_attack attacker.special_defense attacker.speed ∧
    specBasePower 35 55 40 50 50 90 = 51.25 ∧
    calculate_base_power
      { id := 0, pokeapi_id := 0, name := "example", hp := 35, attack := 55,
        defense := 40, special_attack := 50, special_defense := 50, speed := 90,
        types := "", sprite_url := none } = 51.25 ∧
    (0 : ℚ) < ((max defender.speed 1 : ℤ) : ℚ) := by
  refine ⟨?_, rfl, by norm_num [specBasePower],
    by norm_num [calculate_base_power], ?_⟩
  · simp only [calculate_battle_score, specSideScore, specBasePower,
      calculate_base_power]
    rw [Int.cast_max]
    norm_num
  · have h1 : (1 : ℤ) ≤ max defender.speed 1 := le_max_right _ _
    exact_mod_cast lt_of_lt_of_le zero_lt_one h1

/-! ### Draw policy and winner selection -/

/-- The draw flag of `execute_battle`, characterised: a draw iff either the
average score is positive and the gap is below 1% of it, or the average is
not positive and the scores coincide exactly. -/
theorem battleIsDraw_eq_true_iff (p1 p2 : Pokemon) :
    battleIsDraw p1 p2 = true ↔
      (0 < (battleScore1 p1 p2 + battleScore1 p2 p1) / 2 ∧
        |battleScore1 p1 p2 - battleScore1 p2 p1| <
          (battleScore1 p1 p2 + battleScore1 p2 p1) / 2 * 0.01) ∨
      (¬ 0 < (battleScore1 p1 p2 + battleScore1 p2 p1) / 2 ∧
        battleScore1 p1 p2 = battleScore1 p2 p1) := by
  simp only [battleIsDraw]
  by_cases h : (battleScore1 p1 p2 + battleScore1 p2 p1) / 2 > 0
  · rw [if_pos h]
    simp only [decide_eq_true_eq]
    constructor
    · intro hlt
      exact Or.inl ⟨h, hlt⟩
    · rintro (⟨-, hlt⟩ | ⟨hn, -⟩)
      · exact hlt
      · exact absurd h hn
  · rw [if_neg h]
    simp only [decide_eq_true_eq]
    constructor
    · intro heq
      exact Or.inr ⟨h, heq⟩
    · rintro (⟨hp, -⟩ | ⟨-, heq⟩)
      · exact absurd hp h
      · exact heq

/-- Exactly equal per-side scores always «draw». -/
theorem draw_of_score_eq (p1 p2 : Pokemon)
    (h : battleScore1 p1 p2 = battleScore1 p2 p1) :
    battleIsDraw p1 p2 = true := by
  rw [battleIsDraw_eq_true_iff]
  by_cases havg : 0 < (battleScore1 p1 p2 + battleScore1 p2 p1) / 2
  · refine Or.inl ⟨havg, ?_⟩
    have hz : battleScore1 p1 p2 - battleScore1 p2 p1 = 0 := by
      rw [h, sub_self]
    rw [hz, abs_zero]
    exact mul_pos havg (by norm_num)
  · exact Or.inr ⟨havg, h⟩

/-- When the battle is not a draw the two per-side scores differ. -/
theorem score_ne_of_not_draw (p1 p2 : Pokemon)
    (h : battleIsDraw p1 p2 = false) :
    battleScore1 p1 p2 ≠ battleScore1 p2 p1 := by
  intro heq
  rw [draw_of_score_eq p1 p2 heq] at h
  cases h

/-- C3: `execute_battle` declares a draw exactly under the spec's policy
(average positive and gap under 1% of the average, or average not positive
and scores exactly equal); otherwise the strictly higher score wins, and a
non-draw never has exactly equal scores. -/
theorem draw_policy (p1 p2 : Pokemon) :
    ((execute_battle p1 p2).is_draw = true ↔
      (0 < (battleScore1 p1 p2 + battleScore1 p2 p1) / 2 ∧
        |battleScore1 p1 p2 - battleScore1 p2 p1| <
          (battleScore1 p1 p2 + battleScore1 p2 p1) / 2 * 0.01) ∨
      (¬ 0 < (battleScore1 p1 p2 + battleScore1 p2 p1) / 2 ∧
        battleScore1 p1 p2 = battleScore1 p2 p1)) ∧
    ((execute_battle p1 p2).is_draw = false →
      (battleScore1 p1 p2 > battleScore1 p2 p1 →
        (execute_battle p1 p2).winner = some p1) ∧
      (battleScore1 p2 p1 > battleScore1 p1 p2 →
        (execute_battle p1 p2).winner = some p2) ∧
      battleScore1 p1 p2 ≠ battleScore1 p2 p1) := by
  constructor
  · exact battleIsDraw_eq_true_iff p1 p2
  · intro hnd
    have hnd' : battleIsDraw p1 p2 = false := hnd
    refine ⟨?_, ?_, score_ne_of_not_draw p1 p2 hnd'⟩
    · intro hgt
      show (if battleIsDraw p1 p2 then none
        else if battleScore1 p1 p2 > battleScore1 p2 p1 then some p1
        else some p2) = some p1
      rw [hnd']
      simp [hgt]
    · intro hgt
      show (if battleIsDraw p1 p2 then none
        else if battleScore1 p1 p2 > battleScore1 p2 p1 then some p1
        else some p2) = some p2
      rw [hnd']
      simp [not_lt_of_gt hgt]

/-! ### Effectiveness of empty category lists -/

/-- An empty attacker list leaves the multiplier at its initial 1.0. -/
theorem eff_nil_left (defender_types : List String) :
    get_type_effectiveness [] defender_types = 1.0 := rfl

/-- An empty defender list makes the inner loop a no-op, so the outer fold
returns its initial 1.0. -/
theorem eff_nil_right (attacker_types : List String) :
    get_type_effectiveness attacker_types [] = 1.0 := by
  have key : ∀ (l : List String) (m : ℚ),
      l.foldl (fun m atk => List.foldl (fun m d => m * chartGet atk d) m []) m
        = m := by
    intro l
    induction l with
    | nil => intro m; rfl
    | cons a t ih => intro m; exact ih m
  exact key attacker_types 1.0

/-! ### Concrete participants for witnesses -/

/-- A creature with hp 8 and every other attribute 0 (typeless). -/
def monA : Pokemon :=
  { id := 1, pokeapi_id := 101, name := "alpha", hp := 8, attack := 0,
    defense := 0, special_attack := 0, special_defense := 0, speed := 0,
    types := "", sprite_url := none }

/-- A creature with every attribute 0 (typeless). -/
def monB : Pokemon :=
  { id := 2, pokeapi_id := 102, name := "beta", hp := 0, attack := 0,
    defense := 0, special_attack := 0, special_defense := 0, speed := 0,
    types := "", sprite_url := none }

/-- A second all-zero creature with a different identity. -/
def monC : Pokemon :=
  { id := 3, pokeapi_id := 103, name := "gamma", hp := 0, attack := 0,
    defense := 0, special_attack := 0, special_defense := 0, speed := 0,
    types := "", sprite_url := none }

/-- `monA` attacking `monB` scores (8·0.5/4)·0.5 + 1·1·0.3 + 0 = 4/5. -/
theorem score_monA_monB : battleScore1 monA monB = 4/5 := by
  rw [battleScore1, show parseTypes monA.types = ([] : List String) from rfl,
    show parseTypes monB.types = ([] : List String) from rfl]
  rw [calculate_battle_score, eff_nil_left]
  norm_num [calculate_base_power, monA, monB, min_def, max_def]

/-- `monB` attacking `monA` scores 0. -/
theorem score_monB_monA : battleScore1 monB monA = 0 := by
  rw [battleScore1, show parseTypes monB.types = ([] : List String) from rfl,
    show parseTypes monA.types = ([] : List String) from rfl]
  rw [calculate_battle_score, eff_nil_left]
  norm_num [calculate_base_power, monA, monB, min_def, max_def]

/-- `monB` attacking `monC` scores 0. -/
theorem score_monB_monC : battleScore1 monB monC = 0 := by
  rw [battleScore1, show parseTypes monB.types = ([] : List String) from rfl,
    show parseTypes monC.types = ([] : List String) from rfl]
  rw [calculate_battle_score, eff_nil_left]
  norm_num [calculate_base_power, monB, monC, min_def, max_def]

/-- `monC` attacking `monB` scores 0. -/
theorem score_monC_monB : battleScore1 monC monB = 0 := by
  rw [battleScore1, show parseTypes monC.types = ([] : List String) from rfl,
    show parseTypes monB.types = ([] : List String) from rfl]
  rw [calculate_battle_score, eff_nil_left]
  norm_num [calculate_base_power, monB, monC, min_def, max_def]

/-- `monA` vs `monB` is not a draw: 4/5 vs 0 is far outside the 1% band. -/
theorem monA_monB_not_draw : battleIsDraw monA monB = false := by
  simp only [battleIsDraw]
  rw [score_monA_monB, score_monB_monA]
  rw [if_pos (show ((4 : ℚ)/5 + 0)/2 > 0 by norm_num)]
  simp only [decide_eq_false_iff_not]
  rw [sub_zero, abs_of_pos (show (0 : ℚ) < 4/5 by norm_num)]
  norm_num

/-- `monA` wins the `monA` vs `monB` battle. -/
theorem monA_wins : (execute_battle monA monB).winner = some monA := by
  show (if battleIsDraw monA monB then none
    else if battleScore1 monA monB > battleScore1 monB monA then some monA
    else some monB) = some monA
  rw [monA_monB_not_draw, score_monA_monB, score_monB_monA]
  norm_num

/-- Witness for `draw_policy`: the all-zero pair scores 0 against 0, the
average is not positive, and the exact-equality branch declares a draw. -/
theorem draw_policy_witness : (execute_battle monB monC).is_draw = true := by
  apply (draw_policy monB monC).1.mpr
  right
  rw [score_monB_monC, score_monC_monB]
  norm_num

/-- C4: the outcome invariant of `execute_battle` — the winner is absent iff
the draw flag holds, a present winner is one of the two participants, and the
persisted outcome row (`winner_id`) preserves both facts. -/
theorem outcome_invariant (p1 p2 : Pokemon) :
    ((execute_battle p1 p2).winner = none ↔
      (execute_battle p1 p2).is_draw = true) ∧
    (∀ w : Pokemon, (execute_battle p1 p2).winner = some w → w = p1 ∨ w = p2) ∧
    ((mkBattleRecord p1 p2 (execute_battle p1 p2)).winner_id = none ↔
      (execute_battle p1 p2).is_draw = true) ∧
    (∀ i : ℤ, (mkBattleRecord p1 p2 (execute_battle p1 p2)).winner_id = some i →
      i = p1.id ∨ i = p2.id) := by
  cases hb : battleIsDraw p1 p2
  · by_cases hgt : battleScore1 p1 p2 > battleScore1 p2 p1
    · refine ⟨by simp [execute_battle, hb, hgt], ?_,
        by simp [execute_battle, mkBattleRecord, hb, hgt], ?_⟩
      · intro w hw
        simp [execute_battle, hb, hgt] at hw
        exact Or.inl hw.symm
      · intro i hi
        simp [execute_battle, mkBattleRecord, hb, hgt] at hi
        exact Or.inl hi.symm
    · refine ⟨by simp [execute_battle, hb, hgt], ?_,
        by simp [execute_battle, mkBattleRecord, hb, hgt], ?_⟩
      · intro w hw
        simp [execute_battle, hb, hgt] at hw
        exact Or.inr hw.symm
      · intro i hi
        simp [execute_battle, mkBattleRecord, hb, hgt] at hi
        exact Or.inr hi.symm
  · refine ⟨by simp [execute_battle, hb], ?_,
      by simp [execute_battle, mkBattleRecord, hb], ?_⟩
    · intro w hw
      simp [execute_battle, hb] at hw
    · intro i hi
      simp [execute_battle, mkBattleRecord, hb] at hi

/-- Witness for `outcome_invariant`: `monA` beats `monB`, its winner is set,
and the theorem places that winner among the participants. -/
theorem outcome_invariant_witness :
    (execute_battle monA monB).winner = some monA ∧
    (monA = monA ∨ monA = monB) :=
  ⟨monA_wins, (outcome_invariant monA monB).2.1 monA monA_wins⟩

/-- C5: swapping the argument order of `execute_battle` mirrors the outcome —
the two returned scores trade places, the draw flag is identical, and the
winner is the same creature. -/
theorem battle_mirror (p1 p2 : Pokemon) :
    (execute_battle p2 p1).pokemon1_score = (execute_battle p1 p2).pokemon2_score ∧
    (execute_battle p2 p1).pokemon2_score = (execute_battle p1 p2).pokemon1_score ∧
    (execute_battle p2 p1).is_draw = (execute_battle p1 p2).is_draw ∧
    (execute_battle p2 p1).winner = (execute_battle p1 p2).winner := by
  have hdraw : battleIsDraw p2 p1 = battleIsDraw p1 p2 := by
    simp only [battleIsDraw]
    rw [abs_sub_comm (battleScore1 p2 p1) (battleScore1 p1 p2),
      add_comm (battleScore1 p2 p1) (battleScore1 p1 p2)]
    congr 1
    exact decide_eq_decide.mpr ⟨Eq.symm, Eq.symm⟩
  refine ⟨rfl, rfl, hdraw, ?_⟩
  show (if battleIsDraw p2 p1 then none
      else if battleScore1 p2 p1 > battleScore1 p1 p2 then some p2
      else some p1) =
    (if battleIsDraw p1 p2 then none
      else if battleScore1 p1 p2 > battleScore1 p2 p1 then some p1
      else some p2)
  rw [hdraw]
  cases hb : battleIsDraw p1 p2
  · have hne := score_ne_of_not_draw p1 p2 hb
    rcases lt_or_gt_of_ne hne with hlt | hgt
    · simp [hlt, lt_asymm hlt]
    · simp [hgt, lt_asymm hgt]
  · simp

/-- C6: participants with equal attributes and equal parsed category lists
(regardless of names and identities) always draw, with no winner. -/
theorem identical_draw (p1 p2 : Pokemon)
    (hhp : p1.hp = p2.hp) (hatk : p1.attack = p2.attack)
    (hdef : p1.defense = p2.defense)
    (hsatk : p1.special_attack = p2.special_attack)
    (hsdef : p1.special_defense = p2.special_defense)
    (hspd : p1.speed = p2.speed)
    (hty : parseTypes p1.types = parseTypes p2.types) :
    (execute_battle p1 p2).is_draw = true ∧
    (execute_battle p1 p2).winner = none := by
  have hs : battleScore1 p1 p2 = battleScore1 p2 p1 := by
    simp only [battleScore1, calculate_battle_score, calculate_base_power,
      hhp, hatk, hdef, hsatk, hsdef, hspd, hty]
  have hd : battleIsDraw p1 p2 = true := draw_of_score_eq p1 p2 hs
  refine ⟨hd, ?_⟩
  show (if battleIsDraw p1 p2 then none
    else if battleScore1 p1 p2 > battleScore1 p2 p1 then some p1
    else some p2) = none
  rw [hd]
  simp

/-- Two creatures with identical attributes and categories but different
identities. -/
def twinA : Pokemon :=
  { id := 7, pokeapi_id := 25, name := "pika", hp := 35, attack := 55,
    defense := 40, special_attack := 50, special_defense := 50, speed := 90,
    types := "electric", sprite_url := none }

/-- The second twin. -/
def twinB : Pokemon :=
  { id := 8, pokeapi_id := 26, name := "chu", hp := 35, attack := 55,
    defense := 40, special_attack := 50, special_defense := 50, speed := 90,
    types := "electric", sprite_url := none }

/-- Witness for `identical_draw` at the concrete twin pair. -/
theorem identical_draw_witness :
    (execute_battle twinA twinB).is_draw = true ∧
    (execute_battle twinA twinB).winner = none :=
  identical_draw twinA twinB rfl rfl rfl rfl rfl rfl rfl

/-! ### Error taxonomy of the external fetch (C7) -/

/-- The not-found error always carries a non-empty human-readable message. -/
theorem notFound_message_ne (n : String) : (PokeError.notFound n).message ≠ "" := by
  intro h
  have hlen := congrArg String.length h
  rw [PokeError.message] at hlen
  rw [String.length_append, String.length_append] at hlen
  have h1 : "Pokemon '".length = 9 := rfl
  have h2 : "' not found".length = 11 := rfl
  have h3 : "".length = 0 := rfl
  omega

/-- The source-unavailable error always carries a non-empty message. -/
theorem apiError_message_ne (m : String) : (PokeError.apiError m).message ≠ "" := by
  intro h
  have hlen := congrArg String.length h
  rw [PokeError.message] at hlen
  rw [String.length_append] at hlen
  have h1 : "PokeAPI error: ".length = 15 := rfl
  have h3 : "".length = 0 := rfl
  omega

/-- C7: on a cache miss, `get_pokemon` fails with `PokemonNotFoundError`
carrying the requested name iff the source answers 404; it fails with
`PokeAPIError` iff a transport failure or any other non-2xx status occurs;
no other error kind exists, every raised error has a non-empty message and
one of the two stable codes, and the codes are fixed per kind. -/
theorem get_pokemon_error_taxonomy (cache : PokemonCache) (now : ℚ)
    (name : String) (net : HttpResult)
    (hmiss : (cache.get now (pyNormalize name)).1 = none) :
    ((get_pokemon cache now name net).1 = .error (.notFound name) ↔
      (∃ body, net = .response 404 body)) ∧
    ((∃ msg, (get_pokemon cache now name net).1 = .error (.apiError msg)) ↔
      ((∃ msg, net = .requestError msg) ∨
        (∃ status body, net = .response status body ∧ status ≠ 404 ∧
          ¬(200 ≤ status ∧ status ≤ 299)))) ∧
    (∀ e, (get_pokemon cache now name net).1 = .error e →
      e.message ≠ "" ∧
      (e.error_code = "POKEMON_NOT_FOUND" ∨ e.error_code = "POKEAPI_ERROR")) ∧
    (PokeError.notFound name).error_code = "POKEMON_NOT_FOUND" ∧
    (∀ m, (PokeError.apiError m).error_code = "POKEAPI_ERROR") := by
  obtain ⟨c2, hc⟩ : ∃ c2, cache.get now (pyNormalize name) = (none, c2) := by
    cases h : cache.get now (pyNormalize name) with
    | mk r c =>
      rw [h] at hmiss
      refine ⟨c, ?_⟩
      rw [show r = none from hmiss]
  rcases net with ⟨status, body⟩ | msg
  · by_cases h404 : status = 404
    · subst h404
      have hres : (get_pokemon cache now name (.response 404 body)).1 =
          .error (.notFound name) := by
        simp [get_pokemon, hc]
      refine ⟨iff_of_true hres ⟨body, rfl⟩, ?_, ?_, rfl, fun m => rfl⟩
      · apply iff_of_false
        · rintro ⟨m, hm⟩
          rw [hres] at hm
          simp at hm
        · rintro (⟨m, hm⟩ | ⟨s, b, hsb, hne, -⟩)
          · simp at hm
          · injection hsb with h1 h2
            exact hne h1.symm
      · intro e he
        rw [hres] at he
        have hne : PokeError.notFound name = e := by
          injection he
        subst hne
        exact ⟨notFound_message_ne name, Or.inl rfl⟩
    · by_cases h2xx : 200 ≤ status ∧ status ≤ 299
      · have hres : (get_pokemon cache now name (.response status body)).1 =
            .ok (parse_pokemon_data body) := by
          simp [get_pokemon, hc, h404, h2xx]
        refine ⟨?_, ?_, ?_, rfl, fun m => rfl⟩
        · apply iff_of_false
          · intro h
            rw [hres] at h
            simp at h
          · rintro ⟨b, hb⟩
            injection hb with h1 h2
            exact h404 h1
        · apply iff_of_false
          · rintro ⟨m, hm⟩
            rw [hres] at hm
            simp at hm
          · rintro (⟨m, hm⟩ | ⟨s, b, hsb, -, hnot2⟩)
            · simp at hm
            · injection hsb with h1 h2
              rw [← h1] at hnot2
              exact hnot2 h2xx
        · intro e he
          rw [hres] at he
          simp at he
      · have hres : (get_pokemon cache now name (.response status body)).1 =
            .error (.apiError ("HTTP error " ++ toString status)) := by
          simp [get_pokemon, hc, h404, h2xx]
        refine ⟨?_, ?_, ?_, rfl, fun m => rfl⟩
        · apply iff_of_false
          · intro h
            rw [hres] at h
            simp at h
          · rintro ⟨b, hb⟩
            injection hb with h1 h2
            exact h404 h1
        · exact iff_of_true ⟨_, hres⟩ (Or.inr ⟨status, body, rfl, h404, h2xx⟩)
        · intro e he
          rw [hres] at he
          have hne : PokeError.apiError ("HTTP error " ++ toString status) = e := by
            injection he
          subst hne
          exact ⟨apiError_message_ne _, Or.inr rfl⟩
  · have hres : (get_pokemon cache now name (.requestError msg)).1 =
        .error (.apiError msg) := by
      simp [get_pokemon, hc]
    refine ⟨?_, ?_, ?_, rfl, fun m => rfl⟩
    · apply iff_of_false
      · intro h
        rw [hres] at h
        simp at h
      · rintro ⟨b, hb⟩
        simp at hb
    · exact iff_of_true ⟨msg, hres⟩ (Or.inl ⟨msg, rfl⟩)
    · intro e he
      rw [hres] at he
      have hne : PokeError.apiError msg = e := by
        injection he
      subst hne
      exact ⟨apiError_message_ne _, Or.inr rfl⟩

/-- An initially empty cache with a 60-second time-to-live. -/
def emptyCache : PokemonCache := { cache := fun _ => none, ttl := 60 }

/-- A sample external payload. -/
def sampleData : PokeData :=
  { pokeapi_id := 151, name := "mew", stats := [("hp", 100), ("speed", 100)],
    types := ["psychic"], sprites := some (some "mew.png") }

/-- Witness for `get_pokemon_error_taxonomy`: a 404 on an empty cache yields
exactly `PokemonNotFoundError` with the requested name. -/
theorem get_pokemon_error_taxonomy_witness :
    (get_pokemon emptyCache 0 "Mew" (.response 404 sampleData)).1 =
      .error (.notFound "Mew") :=
  ((get_pokemon_error_taxonomy emptyCache 0 "Mew"
    (.response 404 sampleData) rfl).1).mpr ⟨sampleData, rfl⟩

/-! ### Orchestration (C8) -/

/-- C8: `BattleService.execute_battle` with two names equal after
normalization fails with `SamePokemonError` and leaves the world (store and
cache) unchanged — before any lookup or fetch; with distinct normalized
names it never fails with `SamePokemonError`. -/
theorem run_contest_same_name (w : World) (now : ℚ) (net : String → HttpResult)
    (name1 name2 : String) :
    (pyNormalize name1 = pyNormalize name2 →
      BattleService.execute_battle w now net name1 name2 =
        (.error (.samePokemon (pyNormalize name1)), w)) ∧
    (pyNormalize name1 ≠ pyNormalize name2 →
      ∀ n, (BattleService.execute_battle w now net name1 name2).1 ≠
        .error (.samePokemon n)) := by
  constructor
  · intro h
    simp only [BattleService.execute_battle]
    rw [if_pos h]
  · intro h n
    simp only [BattleService.execute_battle]
    rw [if_neg h]
    rcases h1 : get_or_fetch_pokemon w now net (pyNormalize name1) with ⟨r1, w1⟩
    rcases r1 with e1 | p1
    · simp [h1]
    · rcases h2 : get_or_fetch_pokemon w1 now net (pyNormalize name2) with ⟨r2, w2⟩
      rcases r2 with e2 | p2
      · simp [h1, h2]
      · simp [h1, h2]

/-- An initial world: empty store, empty cache. -/
def world0 : World := { store := [], cache := emptyCache }

/-- A network oracle that always fails at transport level. -/
def netFail : String → HttpResult := fun _ => .requestError "connection refused"

/-- Witness for `run_contest_same_name`: "Pikachu " and "pikachu" normalize
equal and are rejected with the world untouched; "pikachu" vs "mew" can never
produce the identical-participants error. -/
theorem run_contest_same_name_witness :
    BattleService.execute_battle world0 0 netFail "Pikachu " "pikachu" =
      (.error (.samePokemon (pyNormalize "Pikachu ")), world0) ∧
    (∀ n, (BattleService.execute_battle world0 0 netFail "pikachu" "mew").1 ≠
      .error (.samePokemon n)) :=
  ⟨(run_contest_same_name world0 0 netFail "Pikachu " "pikachu").1 (by decide),
   (run_contest_same_name world0 0 netFail "pikachu" "mew").2 (by decide)⟩

/-! ### Cache lifecycle (C9) -/

/-- A key absent from a cache stays absent under any operation that is not a
`set` of that key (a lookup's eviction only ever removes entries). -/
theorem applyOps_none_preserved (k : String) :
    ∀ (ops : List CacheOp) (c : PokemonCache), c.cache k = none →
      (∀ t v, CacheOp.setOp t k v ∉ ops) →
      (applyOps c ops).cache k = none := by
  intro ops
  induction ops with
  | nil =>
    intro c hc _
    exact hc
  | cons op rest ih =>
    intro c hc hnot
    have hrest : ∀ t v, CacheOp.setOp t k v ∉ rest := by
      intro t v hmem
      exact hnot t v (List.mem_cons_of_mem _ hmem)
    show (applyOps (applyOp c op) rest).cache k = none
    apply ih _ _ hrest
    rcases op with ⟨t, k', v⟩ | _ | ⟨t, k'⟩
    · have hkk : ¬ (k = k') := by
        intro heq
        exact hnot t v (by rw [heq]; exact List.mem_cons_self _ _)
      simp [applyOp, PokemonCache.set, hkk, hc]
    · simp [applyOp, PokemonCache.clear]
    · simp only [applyOp]
      rcases hck : c.cache k' with _ | entry
      · simp [PokemonCache.get, hck, hc]
      · by_cases hexp : t > entry.expires_at
        · simp only [PokemonCache.get, hck, if_pos hexp]
          by_cases hk : k = k' <;> simp [hk, hc]
        · simp [PokemonCache.get, hck, hexp, hc]

/-- C9: a lookup after the configured time-to-live has elapsed returns no
data and silently evicts the entry; and after `clear`, every lookup of a key
returns nothing as long as no new `set` for that key has occurred. -/
theorem cache_ttl_expiry_and_clear :
    (∀ (c : PokemonCache) (t0 now : ℚ) (k : String) (v : PokeData),
      now > t0 + c.ttl →
        ((c.set t0 k v).get now k).1 = none ∧
        (((c.set t0 k v).get now k).2).cache k = none) ∧
    (∀ (c : PokemonCache) (ops : List CacheOp) (now : ℚ) (k : String),
      (∀ t v, CacheOp.setOp t k v ∉ ops) →
        ((applyOps c.clear ops).get now k).1 = none) := by
  constructor
  · intro c t0 now k v h
    have hset : (c.set t0 k v).cache k =
        some { data := v, expires_at := t0 + c.ttl } := by
      simp [PokemonCache.set]
    constructor
    · simp [PokemonCache.get, hset, h]
    · simp [PokemonCache.get, hset, h]
  · intro c ops now k hnot
    have hnone : (applyOps c.clear ops).cache k = none :=
      applyOps_none_preserved k ops c.clear (by simp [PokemonCache.clear]) hnot
    simp [PokemonCache.get, hnone]

/-- Witness for `cache_ttl_expiry_and_clear`: an entry set at time 0 with
ttl 60 is gone at time 61, and after a clear a lookup of "pikachu" finds
nothing even after an unrelated set of "mew". -/
theorem cache_ttl_expiry_and_clear_witness :
    ((emptyCache.set 0 "pikachu" sampleData).get 61 "pikachu").1 = none ∧
    ((applyOps emptyCache.clear [CacheOp.setOp 3 "mew" sampleData]).get 4
      "pikachu").1 = none := by
  constructor
  · exact (cache_ttl_expiry_and_clear.1 emptyCache 0 61 "pikachu" sampleData
      (by norm_num [emptyCache])).1
  · refine cache_ttl_expiry_and_clear.2 emptyCache
      [CacheOp.setOp 3 "mew" sampleData] 4 "pikachu" ?_
    intro t v h
    simp at h

/-! ### Totality on empty category lists (C10) -/

/-- C10: `get_type_effectiveness` is total on empty category sequences and
returns exactly the neutral 1.0 when either side is empty; a stored category
string that is empty or contains only delimiters/whitespace parses to no
labels; and contest scoring then proceeds with the neutral multiplier. -/
theorem empty_categories_neutral :
    (∀ defender_types : List String,
      get_type_effectiveness [] defender_types = 1.0) ∧
    (∀ attacker_types : List String,
      get_type_effectiveness attacker_types [] = 1.0) ∧
    parseTypes "" = [] ∧
    parseTypes " , ," = [] ∧
    (∀ p1 p2 : Pokemon, parseTypes p1.types = [] →
      battleScore1 p1 p2 =
        calculate_base_power p1 * 0.5 +
          1.0 * calculate_base_power p1 * 0.3 +
          min ((p1.speed : ℚ) / ((max p2.speed 1 : ℤ) : ℚ)) 2.0 *
            calculate_base_power p1 * 0.2) := by
  refine ⟨eff_nil_left, eff_nil_right, rfl, by decide, ?_⟩
  intro p1 p2 h1
  simp only [battleScore1, calculate_battle_score, h1, eff_nil_left]

/-- Witness for `empty_categories_neutral` at a concrete typeless creature. -/
theorem empty_categories_neutral_witness :
    get_type_effectiveness [] ["water"] = 1.0 ∧
    battleScore1 monB monA =
      calculate_base_power monB * 0.5 +
        1.0 * calculate_base_power monB * 0.3 +
        min ((monB.speed : ℚ) / ((max monA.speed 1 : ℤ) : ℚ)) 2.0 *
          calculate_base_power monB * 0.2 :=
  ⟨empty_categories_neutral.1 ["water"],
   empty_categories_neutral.2.2.2.2 monB monA rfl⟩

end PokemonBattle
